import Mathlib

/-!
Shallow embedding of `src/backtrace/libunwind.rs` (YangKeao/backtrace-rs).

The native unwinding provider (a libunwind-style runtime) is external to the
repository; it is represented here by structures of abstract query functions:
`UwProvider` for the `uw` shim used by the push path, `ExtProvider` for the
`external_unwind` bindings used by the pull path.  Machine addresses
(`*mut c_void`) are modelled as natural numbers and C `int` status codes as
`Int`.  User callbacks are pure functions `Frame → Bool`.  Each walk returns,
besides its value, the list of observable events (re-entrancy-guard
transitions and callback invocations) so that temporal properties of the
walks can be stated precisely.
-/

namespace Backtrace

/-- Machine address, modelling `*mut c_void`. -/
abbrev Addr := Nat

/-- Abstract interface of the `uw` module's direct provider variant: raw
unwind-context handles are identified by natural numbers, and the three
primitives `_Unwind_GetIP`, `get_sp` (`_Unwind_GetCFA`) and
`_Unwind_FindEnclosingFunction` are arbitrary functions supplied by the
external provider. -/
structure UwProvider where
  getIP : Nat → Addr
  get_sp : Nat → Addr
  findEnclosingFunction : Addr → Addr

/-- Build-target operating-system flags consulted by `Frame::symbol_address`
via `cfg!(target_os = "macos")` and `cfg!(target_os = "ios")`. -/
structure Platform where
  target_os_macos : Bool
  target_os_ios : Bool
deriving DecidableEq, Repr

/-- One stack activation record (`enum Frame` in the source): either a live
borrow of provider-owned context state (`Raw`) or a detached snapshot of the
three derived values (`Cloned`). -/
inductive Frame where
  | Raw (ctx : Nat)
  | Cloned (ip : Addr) (sp : Addr) (symbol_address : Addr)
deriving DecidableEq, Repr

/-- `Frame::ip`: a raw frame queries `_Unwind_GetIP`; a cloned frame returns
its stored field. -/
def Frame.ip (P : UwProvider) : Frame → Addr
  | Frame.Raw ctx => P.getIP ctx
  | Frame.Cloned ip _ _ => ip

/-- `Frame::sp`: a raw frame queries `get_sp`; a cloned frame returns its
stored field. -/
def Frame.sp (P : UwProvider) : Frame → Addr
  | Frame.Raw ctx => P.get_sp ctx
  | Frame.Cloned _ sp _ => sp

/-- `Frame::symbol_address`: a cloned frame returns its stored field; a raw
frame returns the instruction pointer itself on macOS/iOS (the enclosing
function query is unreliable there) and otherwise
`_Unwind_FindEnclosingFunction(self.ip())`. -/
def Frame.symbol_address (P : UwProvider) (pl : Platform) (f : Frame) : Addr :=
  match f with
  | Frame.Cloned _ _ symbol_address => symbol_address
  | Frame.Raw ctx =>
      if pl.target_os_macos || pl.target_os_ios then
        (Frame.Raw ctx).ip P
      else
        P.findEnclosingFunction ((Frame.Raw ctx).ip P)

/-- `impl Clone for Frame`: snapshot the three derived values into a
`Cloned` frame. -/
def Frame.clone (P : UwProvider) (pl : Platform) (f : Frame) : Frame :=
  Frame.Cloned (f.ip P) (f.sp P) (f.symbol_address P pl)

/-- Observable events of a walk: re-entrancy-guard transitions (arming by
`Bomb { enabled: true }`, disarming by `bomb.enabled = false`) and user
callback invocations, each recorded with the callback's boolean result. -/
inductive Event where
  | setBomb (enabled : Bool)
  | callbackCall (frame : Frame) (keep_going : Bool)
deriving DecidableEq, Repr

/-- The `_Unwind_Reason_Code` enum declared by the `uw` module; `trace_fn`
produces only `_URC_NO_REASON` and `_URC_FAILURE`. -/
inductive _Unwind_Reason_Code where
  | _URC_NO_REASON
  | _URC_FOREIGN_EXCEPTION_CAUGHT
  | _URC_FATAL_PHASE2_ERROR
  | _URC_FATAL_PHASE1_ERROR
  | _URC_NORMAL_STOP
  | _URC_END_OF_STACK
  | _URC_HANDLER_FOUND
  | _URC_INSTALL_CONTEXT
  | _URC_CONTINUE_UNWIND
  | _URC_FAILURE
deriving DecidableEq, Repr

/-- The push-model trampoline `trace_fn` registered with
`_Unwind_Backtrace`: wrap the opaque handle as a raw frame, arm the guard,
invoke the callback, disarm the guard, and translate the boolean into the
provider's reason code.  Returns the emitted events together with the
reason code handed back to the provider. -/
def trace_fn (P : UwProvider) (cb : Frame → Bool) (ctx : Nat) :
    List Event × _Unwind_Reason_Code :=
  let cx := Frame.Raw ctx
  let keep_going := cb cx
  ([Event.setBomb true, Event.callbackCall cx keep_going, Event.setBomb false],
   if keep_going then _Unwind_Reason_Code._URC_NO_REASON
   else _Unwind_Reason_Code._URC_FAILURE)

/-- Modelled from the spec: `_Unwind_Backtrace` is a primitive of the
external native provider, not repository code.  Per the spec the provider
invokes the registered trampoline once per frame, innermost first,
synchronously, and stops the iteration as soon as the trampoline returns a
reason code other than continue-unwind (`_URC_NO_REASON`).  The provider's
frames are represented by a finite list of opaque context handles. -/
def _Unwind_Backtrace (ctxs : List Nat)
    (tramp : Nat → List Event × _Unwind_Reason_Code) : List Event :=
  match ctxs with
  | [] => []
  | c :: rest =>
      let r := tramp c
      if r.2 = _Unwind_Reason_Code._URC_NO_REASON then
        r.1 ++ _Unwind_Backtrace rest tramp
      else
        r.1

/-- Push-model entry point `trace`: registers `trace_fn` with the
provider's backtrace primitive.  The observable event trace is returned. -/
def trace (P : UwProvider) (cb : Frame → Bool) (ctxs : List Nat) : List Event :=
  _Unwind_Backtrace ctxs (trace_fn P cb)

/-- `struct UnwindError(libc::c_int)`: typed error carrying a status code. -/
structure UnwindError where
  code : Int
deriving DecidableEq, Repr

/-- `UNW_INIT_SIGNAL_FRAME`. -/
def UNW_INIT_SIGNAL_FRAME : Int := 1

/-- `enum StepResult`. -/
inductive StepResult where
  | Error (code : Int)
  | End
  | Success
deriving DecidableEq, Repr

/-- Register numbering used by `unw_get_reg`, one scheme per compiled-in
provider flavour (modules `llvm`, `nongnu_x86_64`, `nongnu_aarch64`). -/
structure RegScheme where
  UNW_REG_IP : Int
  UNW_REG_SP : Int
deriving DecidableEq, Repr

/-- Module `llvm`: special pseudo register numbers. -/
def llvm_regs : RegScheme := RegScheme.mk (-1) (-2)

/-- Module `nongnu_x86_64`: RIP is register 16, RSP is register 7. -/
def nongnu_x86_64_regs : RegScheme := RegScheme.mk 16 7

/-- Module `nongnu_aarch64`: X30 is register 30, X31 is register 31. -/
def nongnu_aarch64_regs : RegScheme := RegScheme.mk 30 31

/-- Which pull-model provider feature is compiled in
(`nongnu-unwind` or `llvm-unwind`). -/
inductive Variant where
  | nongnu
  | llvm
deriving DecidableEq, Repr

/-- Abstract behaviour of the external pull-model provider
(`unw_getcontext`, `unw_init_local`, `unw_init_local2`, `unw_step`,
`unw_get_proc_info`, `unw_get_reg`).  The opaque cursor state is abstracted
by the number of successful steps taken so far, which indexes every
per-position query; `reg_val` and `proc_start_ip` are the values the
provider writes through the out-pointers when the corresponding status is
zero. -/
structure ExtProvider where
  unw_getcontext : Int
  unw_init_local2 : Int → Int
  unw_init_local : Int
  unw_step : Nat → Int
  unw_get_proc_info : Nat → Int
  proc_start_ip : Nat → Addr
  unw_get_reg : Int → Nat → Int
  reg_val : Int → Nat → Addr

/-- A successfully captured unwind context (an opaque fixed-size buffer in
the source). -/
inductive UnwContext where
  | mk
deriving DecidableEq, Repr

/-- A cursor over a captured context; `pos` counts the successful steps
taken, abstracting the opaque in-place-mutated buffer. -/
structure UnwCursor where
  pos : Nat
deriving DecidableEq, Repr

/-- `UnwContext::new`: capture a context with `unw_getcontext`; on a
non-zero status the returned error carries the hardcoded code `-1`. -/
def UnwContext.new (pr : ExtProvider) : Except UnwindError UnwContext :=
  if pr.unw_getcontext = 0 then Except.ok UnwContext.mk
  else Except.error (UnwindError.mk (-1))

/-- Which cursor-initialization primitive `UnwContext::cursor` invoked and,
for `unw_init_local2`, the flag argument it was given (the branch is chosen
by the `cfg` feature in the source). -/
inductive InitCall where
  | init_local2 (flag : Int)
  | init_local
deriving DecidableEq, Repr

/-- `UnwContext::cursor`: under `nongnu-unwind` call `unw_init_local2` with
flag `UNW_INIT_SIGNAL_FRAME` when `signal_frame` is set and `0` otherwise;
under `llvm-unwind` call `unw_init_local`, which takes no flag.  A non-zero
status becomes a typed error carrying that status.  The invoked primitive
is recorded alongside the result. -/
def UnwContext.cursor (self : UnwContext) (v : Variant) (pr : ExtProvider)
    (signal_frame : Bool) : InitCall × Except UnwindError UnwCursor :=
  match v with
  | Variant.nongnu =>
      let flag := if signal_frame then UNW_INIT_SIGNAL_FRAME else 0
      let res := pr.unw_init_local2 flag
      (InitCall.init_local2 flag,
       if res = 0 then Except.ok (UnwCursor.mk 0)
       else Except.error (UnwindError.mk res))
  | Variant.llvm =>
      let res := pr.unw_init_local
      (InitCall.init_local,
       if res = 0 then Except.ok (UnwCursor.mk 0)
       else Except.error (UnwindError.mk res))

/-- `UnwCursor::step`: classify the `unw_step` status — positive is
success (the cursor advances), zero is end of stack, negative is an error
carrying the status. -/
def UnwCursor.step (self : UnwCursor) (pr : ExtProvider) :
    StepResult × UnwCursor :=
  let res := pr.unw_step self.pos
  if res > 0 then (StepResult.Success, UnwCursor.mk (self.pos + 1))
  else if res = 0 then (StepResult.End, self)
  else (StepResult.Error res, self)

/-- `UnwCursor::get_frame`: the proc-info query, then the IP register query,
then the SP register query; the first non-zero status aborts with a typed
error carrying that status, and on full success a cloned frame is built
from the three queried values. -/
def UnwCursor.get_frame (self : UnwCursor) (rs : RegScheme)
    (pr : ExtProvider) : Except UnwindError Frame :=
  let res := pr.unw_get_proc_info self.pos
  if res ≠ 0 then Except.error (UnwindError.mk res)
  else
    let res2 := pr.unw_get_reg rs.UNW_REG_IP self.pos
    if res2 ≠ 0 then Except.error (UnwindError.mk res2)
    else
      let res3 := pr.unw_get_reg rs.UNW_REG_SP self.pos
      if res3 ≠ 0 then Except.error (UnwindError.mk res3)
      else Except.ok (Frame.Cloned (pr.reg_val rs.UNW_REG_IP self.pos)
        (pr.reg_val rs.UNW_REG_SP self.pos) (pr.proc_start_ip self.pos))

/-- The `while let Ok(frame) = x.get_frame()` loop of `trace_external_api`:
deliver the frame to the callback under the guard, break when the callback
returns false, otherwise step, continuing only on `StepResult::Success`.
The source loop is unbounded, so `fuel` bounds how many iterations are
observed; an exhausted budget ends the walk exactly the way the loop's
`break` does.  The closure returns `Ok(())` on every exit path. -/
def trace_loop (rs : RegScheme) (pr : ExtProvider) (f : Frame → Bool) :
    UnwCursor → Nat → List Event × Except UnwindError Unit
  | _, 0 => ([], Except.ok ())
  | x, fuel + 1 =>
      match x.get_frame rs pr with
      | Except.error _ => ([], Except.ok ())
      | Except.ok frame =>
          let keep_going := f frame
          let evs := [Event.setBomb true, Event.callbackCall frame keep_going,
            Event.setBomb false]
          if keep_going then
            match x.step pr with
            | (StepResult.Success, x2) =>
                let rest := trace_loop rs pr f x2 fuel
                (evs ++ rest.1, rest.2)
            | _ => (evs, Except.ok ())
          else (evs, Except.ok ())

/-- The chained value `UnwContext::new().and_then(cursor).and_then(loop)`
computed inside `trace_external_api`, before the trailing
`match ... { _ => () }` discards it. -/
def trace_external_api_result (v : Variant) (rs : RegScheme)
    (pr : ExtProvider) (f : Frame → Bool) (signal_frame : Bool)
    (fuel : Nat) : List Event × Except UnwindError Unit :=
  match UnwContext.new pr with
  | Except.error e => ([], Except.error e)
  | Except.ok ctx =>
      match (ctx.cursor v pr signal_frame).2 with
      | Except.error e => ([], Except.error e)
      | Except.ok x => trace_loop rs pr f x fuel

/-- Pull-model entry point `trace_external_api`: the chained result is
discarded by `match ... { _ => () }`, so the caller receives `()`; only the
event trace (the callback invocations) is observable. -/
def trace_external_api (v : Variant) (rs : RegScheme) (pr : ExtProvider)
    (f : Frame → Bool) (signal_frame : Bool) (fuel : Nat) :
    List Event × Unit :=
  ((trace_external_api_result v rs pr f signal_frame fuel).1, ())

/-- The callback invocations recorded in an event trace, in order. -/
def callbackEvents : List Event → List (Frame × Bool)
  | [] => []
  | Event.callbackCall f b :: rest => (f, b) :: callbackEvents rest
  | Event.setBomb _ :: rest => callbackEvents rest

/-- Canonical guarded shape of a walk trace: each callback invocation
bracketed by arming and disarming the re-entrancy guard. -/
def guard_blocks : List (Frame × Bool) → List Event
  | [] => []
  | (f, b) :: rest =>
      Event.setBomb true :: Event.callbackCall f b :: Event.setBomb false ::
        guard_blocks rest

/-- Every callback invocation except possibly the last returned `true`:
once a callback asks to stop, no further frame is delivered. -/
def all_but_last_continue : List (Frame × Bool) → Bool
  | [] => true
  | _ :: [] => true
  | (_, b) :: rest => b && all_but_last_continue rest

/-- Example register-value oracle used by concrete providers below. -/
def exReg : Int → Nat → Addr := fun r p => r.natAbs + p

/-- Concrete provider: every primitive succeeds and the very first step
reports end of stack. -/
def prWalkOk : ExtProvider :=
  ExtProvider.mk 0 (fun _ => 0) 0 (fun _ => 0) (fun _ => 0)
    (fun p => p + 3) (fun _ _ => 0) exReg

/-- Concrete provider whose context capture reports status 5. -/
def prFailCap : ExtProvider :=
  ExtProvider.mk 5 (fun _ => 0) 0 (fun _ => 0) (fun _ => 0)
    (fun p => p + 3) (fun _ _ => 0) exReg

/-- Concrete provider whose cursor initialization reports status 3. -/
def prFailInit : ExtProvider :=
  ExtProvider.mk 0 (fun _ => 3) 3 (fun _ => 0) (fun _ => 0)
    (fun p => p + 3) (fun _ _ => 0) exReg

/-- Concrete provider whose step primitive reports the failure code -5. -/
def prStepNeg : ExtProvider :=
  ExtProvider.mk 0 (fun _ => 0) 0 (fun _ => -5) (fun _ => 0)
    (fun p => p + 3) (fun _ _ => 0) exReg

/-- Concrete provider whose context capture reports status 7. -/
def prCtx7 : ExtProvider :=
  ExtProvider.mk 7 (fun _ => 0) 0 (fun _ => 0) (fun _ => 0)
    (fun p => p + 3) (fun _ _ => 0) exReg

/-- Concrete push-model shim provider. -/
def uwEx : UwProvider :=
  UwProvider.mk (fun c => c + 1) (fun c => c + 2) (fun a => a * 2)

/-- Platform flags of a macOS build target. -/
def plMac : Platform := Platform.mk true false

/-- Platform flags of a Linux build target. -/
def plLinux : Platform := Platform.mk false false

/-- Extracting the callback invocations from a canonical guarded trace
recovers the invocation list. -/
theorem callbackEvents_guard_blocks (l : List (Frame × Bool)) :
    callbackEvents (guard_blocks l) = l := by
  induction l with
  | nil => rfl
  | cons p rest ih =>
      obtain ⟨f, b⟩ := p
      simp [guard_blocks, callbackEvents, ih]

/-- Prepending an invocation that continued does not affect the
all-but-last-continue property. -/
theorem all_but_last_continue_cons_true (f : Frame)
    (l : List (Frame × Bool)) :
    all_but_last_continue ((f, true) :: l) = all_but_last_continue l := by
  cases l with
  | nil => rfl
  | cons q rest => obtain ⟨g, b⟩ := q; simp [all_but_last_continue]

/-- Shape of every push-model walk: the trace is a concatenation of
guarded callback blocks, and only the last callback may have asked to
stop. -/
theorem push_trace_shape (P : UwProvider) (cb : Frame → Bool)
    (ctxs : List Nat) :
    ∃ l, trace P cb ctxs = guard_blocks l
      ∧ all_but_last_continue l = true := by
  induction ctxs with
  | nil => exact ⟨[], rfl, rfl⟩
  | cons c rest ih =>
      obtain ⟨l, hl, ha⟩ := ih
      cases hb : cb (Frame.Raw c) with
      | false =>
          refine ⟨[(Frame.Raw c, false)], ?_, rfl⟩
          simp [trace, _Unwind_Backtrace, trace_fn, hb, guard_blocks]
      | true =>
          refine ⟨(Frame.Raw c, true) :: l, ?_, ?_⟩
          · have hrest : _Unwind_Backtrace rest (trace_fn P cb)
                = guard_blocks l := hl
            simp [trace, _Unwind_Backtrace, trace_fn, hb, guard_blocks, hrest]
          · rw [all_but_last_continue_cons_true]; exact ha

/-- Shape of every pull-model loop: the trace is a concatenation of
guarded callback blocks, the loop value is `Ok(())`, and only the last
callback may have asked to stop. -/
theorem pull_loop_shape (rs : RegScheme) (pr : ExtProvider)
    (f : Frame → Bool) (x : UnwCursor) (fuel : Nat) :
    ∃ l, trace_loop rs pr f x fuel = (guard_blocks l, Except.ok ())
      ∧ all_but_last_continue l = true := by
  induction fuel generalizing x with
  | zero => exact ⟨[], rfl, rfl⟩
  | succ fuel ih =>
      cases hg : x.get_frame rs pr with
      | error e => exact ⟨[], by simp [trace_loop, hg, guard_blocks], rfl⟩
      | ok frame =>
          cases hf : f frame with
          | false =>
              refine ⟨[(frame, false)], ?_, rfl⟩
              simp [trace_loop, hg, hf, guard_blocks]
          | true =>
              rcases hs : x.step pr with ⟨sr, x2⟩
              cases sr with
              | Success =>
                  obtain ⟨l, hl, ha⟩ := ih x2
                  refine ⟨(frame, true) :: l, ?_, ?_⟩
                  · simp [trace_loop, hg, hf, hs, hl, guard_blocks]
                  · rw [all_but_last_continue_cons_true]; exact ha
              | End =>
                  refine ⟨[(frame, true)], ?_, rfl⟩
                  simp [trace_loop, hg, hf, hs, guard_blocks]
              | Error code =>
                  refine ⟨[(frame, true)], ?_, rfl⟩
                  simp [trace_loop, hg, hf, hs, guard_blocks]

/-- Claim C5: on the macOS/iOS family, `symbol_address()` of a live frame
is the frame's instruction pointer and the provider's enclosing-function
query is never consulted (the result is unchanged under any other provider
agreeing on `getIP`); on any other platform it is
`_Unwind_FindEnclosingFunction` applied to the instruction pointer; a
detached frame returns its stored field. -/
theorem C5_symbol_address_platform (P Q : UwProvider) (pl : Platform)
    (ctx : Nat) (a b c : Addr) :
    ((pl.target_os_macos || pl.target_os_ios) = true →
        (Frame.Raw ctx).symbol_address P pl = (Frame.Raw ctx).ip P
      ∧ (P.getIP = Q.getIP →
          (Frame.Raw ctx).symbol_address P pl
            = (Frame.Raw ctx).symbol_address Q pl))
    ∧ ((pl.target_os_macos || pl.target_os_ios) = false →
        (Frame.Raw ctx).symbol_address P pl
          = P.findEnclosingFunction ((Frame.Raw ctx).ip P))
    ∧ (Frame.Cloned a b c).symbol_address P pl = c := by
  constructor
  · intro h
    constructor
    · simp [Frame.symbol_address, h]
    · intro hip
      simp [Frame.symbol_address, Frame.ip, h, hip]
  constructor
  · intro h
    simp [Frame.symbol_address, h]
  · rfl

/-- Claim C5 witness: evaluated at concrete providers and platforms. -/
theorem C5_symbol_address_platform_witness :
    (Frame.Raw 7).symbol_address uwEx plMac = (Frame.Raw 7).ip uwEx
      ∧ (Frame.Raw 7).symbol_address uwEx plLinux
          = uwEx.findEnclosingFunction ((Frame.Raw 7).ip uwEx) :=
  ⟨((C5_symbol_address_platform uwEx uwEx plMac 7 0 0 0).1 rfl).1,
   (C5_symbol_address_platform uwEx uwEx plLinux 7 0 0 0).2.1 rfl⟩

/-- Claim C6: cloning a live frame snapshots into the detached frame
exactly the three values that the `ip()`, `sp()` and `symbol_address()`
queries on the live frame return immediately before detaching. -/
theorem C6_clone_snapshots (P : UwProvider) (pl : Platform) (ctx : Nat) :
    Frame.clone P pl (Frame.Raw ctx)
        = Frame.Cloned ((Frame.Raw ctx).ip P) ((Frame.Raw ctx).sp P)
            ((Frame.Raw ctx).symbol_address P pl)
      ∧ (Frame.clone P pl (Frame.Raw ctx)).ip P = (Frame.Raw ctx).ip P
      ∧ (Frame.clone P pl (Frame.Raw ctx)).sp P = (Frame.Raw ctx).sp P
      ∧ (Frame.clone P pl (Frame.Raw ctx)).symbol_address P pl
          = (Frame.Raw ctx).symbol_address P pl :=
  ⟨rfl, rfl, rfl, rfl⟩

/-- Claim C10: the accessors of a detached frame return the stored fields
independently of any provider or platform, and cloning a detached frame is
the identity, so cloning is idempotent and repeated accessor calls agree. -/
theorem C10_cloned_accessors (P Q : UwProvider) (pl pl2 : Platform)
    (a b c : Addr) :
    (Frame.Cloned a b c).ip P = a
      ∧ (Frame.Cloned a b c).sp P = b
      ∧ (Frame.Cloned a b c).symbol_address P pl = c
      ∧ Frame.clone P pl (Frame.Cloned a b c) = Frame.Cloned a b c
      ∧ (Frame.Cloned a b c).ip P = (Frame.Cloned a b c).ip Q
      ∧ (Frame.Cloned a b c).sp P = (Frame.Cloned a b c).sp Q
      ∧ (Frame.Cloned a b c).symbol_address P pl
          = (Frame.Cloned a b c).symbol_address Q pl2 :=
  ⟨rfl, rfl, rfl, rfl, rfl, rfl, rfl⟩

/-- Claim C9: `get_frame` performs the proc-info query, the IP register
query and the SP register query; the first non-zero status yields a typed
error carrying that status and no frame, and if all three succeed the
result is a detached frame built from the three queried values. -/
theorem C9_get_frame_queries (rs : RegScheme) (pr : ExtProvider)
    (x : UnwCursor) :
    (pr.unw_get_proc_info x.pos ≠ 0 →
        x.get_frame rs pr
          = Except.error (UnwindError.mk (pr.unw_get_proc_info x.pos)))
    ∧ (pr.unw_get_proc_info x.pos = 0 →
        pr.unw_get_reg rs.UNW_REG_IP x.pos ≠ 0 →
        x.get_frame rs pr
          = Except.error (UnwindError.mk (pr.unw_get_reg rs.UNW_REG_IP x.pos)))
    ∧ (pr.unw_get_proc_info x.pos = 0 →
        pr.unw_get_reg rs.UNW_REG_IP x.pos = 0 →
        pr.unw_get_reg rs.UNW_REG_SP x.pos ≠ 0 →
        x.get_frame rs pr
          = Except.error (UnwindError.mk (pr.unw_get_reg rs.UNW_REG_SP x.pos)))
    ∧ (pr.unw_get_proc_info x.pos = 0 →
        pr.unw_get_reg rs.UNW_REG_IP x.pos = 0 →
        pr.unw_get_reg rs.UNW_REG_SP x.pos = 0 →
        x.get_frame rs pr
          = Except.ok (Frame.Cloned (pr.reg_val rs.UNW_REG_IP x.pos)
              (pr.reg_val rs.UNW_REG_SP x.pos) (pr.proc_start_ip x.pos))) := by
  refine ⟨?_, ?_, ?_, ?_⟩
  · intro h1
    simp [UnwCursor.get_frame, h1]
  · intro h1 h2
    simp [UnwCursor.get_frame, h1, h2]
  · intro h1 h2 h3
    simp [UnwCursor.get_frame, h1, h2, h3]
  · intro h1 h2 h3
    simp [UnwCursor.get_frame, h1, h2, h3]

/-- Claim C9 witness: a fully succeeding provider yields the concrete
detached frame. -/
theorem C9_get_frame_queries_witness :
    (UnwCursor.mk 0).get_frame nongnu_x86_64_regs prWalkOk
      = Except.ok (Frame.Cloned 16 7 3) :=
  (C9_get_frame_queries nongnu_x86_64_regs prWalkOk
    (UnwCursor.mk 0)).2.2.2 rfl rfl rfl

/-- Claim C2 counterexample: with a provider whose capture primitive
reports the non-zero status 7, `UnwContext::new` returns a typed error
carrying the hardcoded code `-1`, which differs from the provider-reported
status. -/
theorem C2_new_code_not_carried :
    UnwContext.new prCtx7 = Except.error (UnwindError.mk (-1))
      ∧ UnwindError.mk (-1) ≠ UnwindError.mk prCtx7.unw_getcontext := by
  constructor
  · rfl
  · decide

/-- Claim C2 amended: when the capture primitive returns a non-zero
status, `UnwContext::new` fails with a typed error carrying the fixed code
`-1`, regardless of the status the provider reported. -/
theorem C2_new_fixed_error (pr : ExtProvider)
    (h : pr.unw_getcontext ≠ 0) :
    UnwContext.new pr = Except.error (UnwindError.mk (-1)) := by
  simp [UnwContext.new, h]

/-- Claim C2 witness: the amended statement at a concrete provider. -/
theorem C2_new_fixed_error_witness :
    UnwContext.new prCtx7 = Except.error (UnwindError.mk (-1)) :=
  C2_new_fixed_error prCtx7 (by decide)

/-- Claim C3 counterexample: under the `llvm-unwind` variant, cursor
initialization invokes the flagless `unw_init_local` primitive, and the
entire result is identical for `signal_frame = true` and
`signal_frame = false` — the flag is not passed to the provider. -/
theorem C3_llvm_flag_not_passed :
    (UnwContext.mk.cursor Variant.llvm prWalkOk true).1 = InitCall.init_local
      ∧ UnwContext.mk.cursor Variant.llvm prWalkOk true
          = UnwContext.mk.cursor Variant.llvm prWalkOk false :=
  ⟨rfl, rfl⟩

/-- Claim C3 amended: the `signal_frame` flag reaches the provider only in
the `nongnu-unwind` variant, as `unw_init_local2`'s flag argument
(`UNW_INIT_SIGNAL_FRAME` when true, `0` when false); the `llvm-unwind`
variant calls the flagless `unw_init_local` and its result is independent
of `signal_frame`. -/
theorem C3_signal_frame_flag (ctx : UnwContext) (pr : ExtProvider)
    (sf : Bool) :
    (ctx.cursor Variant.nongnu pr sf).1
        = InitCall.init_local2 (if sf then UNW_INIT_SIGNAL_FRAME else 0)
      ∧ (ctx.cursor Variant.llvm pr sf).1 = InitCall.init_local
      ∧ ctx.cursor Variant.llvm pr sf = ctx.cursor Variant.llvm pr true := by
  cases ctx
  refine ⟨rfl, rfl, rfl⟩

/-- Claim C4 counterexample: with a provider whose step primitive reports
the code `-5`, the pull walk delivers the first frame and terminates, but
the chained walk result is `Ok(())` — the negative code produced no typed
error in the walk's result. -/
theorem C4_negative_step_error_discarded :
    trace_external_api_result Variant.nongnu nongnu_x86_64_regs prStepNeg
        (fun _ => true) false 5
      = ([Event.setBomb true,
          Event.callbackCall (Frame.Cloned 16 7 3) true,
          Event.setBomb false], Except.ok ()) := by
  rfl

/-- Claim C4 amended: the step result is classified three ways — a
positive provider value is `StepResult::Success` and the loop continues to
the next frame, zero is `StepResult::End` and the walk terminates
normally, and a negative value is `StepResult::Error` carrying that code,
which also terminates the loop, but the loop discards the code and ends
with `Ok(())` rather than a typed error. -/
theorem C4_step_classification (rs : RegScheme) (pr : ExtProvider)
    (x : UnwCursor) (f : Frame → Bool) (frame : Frame) (fuel : Nat) :
    (pr.unw_step x.pos > 0 →
        x.step pr = (StepResult.Success, UnwCursor.mk (x.pos + 1)))
    ∧ (pr.unw_step x.pos = 0 → x.step pr = (StepResult.End, x))
    ∧ (pr.unw_step x.pos < 0 →
        x.step pr = (StepResult.Error (pr.unw_step x.pos), x))
    ∧ (x.get_frame rs pr = Except.ok frame → f frame = true →
        pr.unw_step x.pos > 0 →
        trace_loop rs pr f x (fuel + 1)
          = ([Event.setBomb true, Event.callbackCall frame true,
              Event.setBomb false]
                ++ (trace_loop rs pr f (UnwCursor.mk (x.pos + 1)) fuel).1,
             (trace_loop rs pr f (UnwCursor.mk (x.pos + 1)) fuel).2))
    ∧ (x.get_frame rs pr = Except.ok frame → f frame = true →
        pr.unw_step x.pos = 0 →
        trace_loop rs pr f x (fuel + 1)
          = ([Event.setBomb true, Event.callbackCall frame true,
              Event.setBomb false], Except.ok ()))
    ∧ (x.get_frame rs pr = Except.ok frame → f frame = true →
        pr.unw_step x.pos < 0 →
        trace_loop rs pr f x (fuel + 1)
          = ([Event.setBomb true, Event.callbackCall frame true,
              Event.setBomb false], Except.ok ())) := by
  refine ⟨?_, ?_, ?_, ?_, ?_, ?_⟩
  · intro h
    simp [UnwCursor.step, h]
  · intro h
    simp [UnwCursor.step, h]
  · intro h
    have h1 : ¬ pr.unw_step x.pos > 0 := by omega
    have h2 : ¬ pr.unw_step x.pos = 0 := by omega
    simp [UnwCursor.step, h1, h2]
  · intro hg hf h
    have hs : x.step pr = (StepResult.Success, UnwCursor.mk (x.pos + 1)) := by
      simp [UnwCursor.step, h]
    simp [trace_loop, hg, hf, hs]
  · intro hg hf h
    have hs : x.step pr = (StepResult.End, x) := by
      simp [UnwCursor.step, h]
    simp [trace_loop, hg, hf, hs]
  · intro hg hf h
    have h1 : ¬ pr.unw_step x.pos > 0 := by omega
    have h2 : ¬ pr.unw_step x.pos = 0 := by omega
    have hs : x.step pr = (StepResult.Error (pr.unw_step x.pos), x) := by
      simp [UnwCursor.step, h1, h2]
    simp [trace_loop, hg, hf, hs]

/-- Claim C4 witness: the amended statement at a concrete provider whose
step primitive reports `-5`. -/
theorem C4_step_classification_witness :
    trace_loop nongnu_x86_64_regs prStepNeg (fun _ => true)
        (UnwCursor.mk 0) 3
      = ([Event.setBomb true,
          Event.callbackCall (Frame.Cloned 16 7 3) true,
          Event.setBomb false], Except.ok ()) :=
  (C4_step_classification nongnu_x86_64_regs prStepNeg (UnwCursor.mk 0)
    (fun _ => true) (Frame.Cloned 16 7 3) 2).2.2.2.2.2 rfl rfl (by decide)

/-- Claim C1 counterexample: a context-capture failure and a
cursor-initialization failure produce identical caller-observable outcomes
of `trace_external_api` — an empty event trace and the unit value — so no
typed error reaches the caller and the result does not let the caller
observe which stage failed. -/
theorem C1_stage_not_observable :
    trace_external_api Variant.nongnu nongnu_x86_64_regs prFailCap
        (fun _ => true) true 5
      = trace_external_api Variant.nongnu nongnu_x86_64_regs prFailInit
          (fun _ => true) true 5
      ∧ trace_external_api Variant.nongnu nongnu_x86_64_regs prFailCap
          (fun _ => true) true 5
        = ([], ()) :=
  ⟨rfl, rfl⟩

/-- Claim C1 amended: inside the internal `and_then` chain, a capture
failure short-circuits with the typed error code `-1` and a
cursor-initialization failure with the provider status, but the
frame-query/step loop ends in `Ok(())` on every path, and
`trace_external_api` discards the chained result entirely, returning unit;
the failing stage is not reported to the caller. -/
theorem C1_pull_error_channel (v : Variant) (rs : RegScheme)
    (pr : ExtProvider) (f : Frame → Bool) (sf : Bool) (fuel : Nat) :
    (pr.unw_getcontext ≠ 0 →
        trace_external_api_result v rs pr f sf fuel
          = ([], Except.error (UnwindError.mk (-1))))
    ∧ (pr.unw_getcontext = 0 →
        pr.unw_init_local2 (if sf then UNW_INIT_SIGNAL_FRAME else 0) ≠ 0 →
        trace_external_api_result Variant.nongnu rs pr f sf fuel
          = ([], Except.error (UnwindError.mk
              (pr.unw_init_local2 (if sf then UNW_INIT_SIGNAL_FRAME else 0)))))
    ∧ (pr.unw_getcontext = 0 → pr.unw_init_local ≠ 0 →
        trace_external_api_result Variant.llvm rs pr f sf fuel
          = ([], Except.error (UnwindError.mk pr.unw_init_local)))
    ∧ (∀ x : UnwCursor, (trace_loop rs pr f x fuel).2 = Except.ok ())
    ∧ trace_external_api v rs pr f sf fuel
        = ((trace_external_api_result v rs pr f sf fuel).1, ()) := by
  refine ⟨?_, ?_, ?_, ?_, rfl⟩
  · intro h
    simp [trace_external_api_result, UnwContext.new, h]
  · intro h h2
    simp [trace_external_api_result, UnwContext.new, UnwContext.cursor,
      h, h2]
  · intro h h2
    simp [trace_external_api_result, UnwContext.new, UnwContext.cursor,
      h, h2]
  · intro x
    obtain ⟨l, hl, _⟩ := pull_loop_shape rs pr f x fuel
    rw [hl]

/-- Claim C1 witness: the amended statement at a concrete provider whose
capture primitive fails. -/
theorem C1_pull_error_channel_witness :
    trace_external_api_result Variant.nongnu nongnu_x86_64_regs prFailCap
        (fun _ => true) true 5
      = ([], Except.error (UnwindError.mk (-1))) :=
  (C1_pull_error_channel Variant.nongnu nongnu_x86_64_regs prFailCap
    (fun _ => true) true 5).1 (by decide)

/-- Claim C7: a callback returning false stops frame delivery — the push
trampoline translates false into `_URC_FAILURE` instead of
continue-unwind, and in both the push and the pull walk every callback
invocation other than the last returned true, so no frame is delivered
after a callback asks to stop. -/
theorem C7_stop_after_false (P : UwProvider) (cb : Frame → Bool)
    (ctxs : List Nat) (ctx : Nat) (v : Variant) (rs : RegScheme)
    (pr : ExtProvider) (f : Frame → Bool) (sf : Bool) (fuel : Nat) :
    (trace_fn P cb ctx).2
        = (if cb (Frame.Raw ctx) then _Unwind_Reason_Code._URC_NO_REASON
           else _Unwind_Reason_Code._URC_FAILURE)
      ∧ all_but_last_continue (callbackEvents (trace P cb ctxs)) = true
      ∧ all_but_last_continue
          (callbackEvents (trace_external_api v rs pr f sf fuel).1)
            = true := by
  refine ⟨rfl, ?_, ?_⟩
  · obtain ⟨l, hl, ha⟩ := push_trace_shape P cb ctxs
    rw [hl, callbackEvents_guard_blocks]
    exact ha
  · cases hn : UnwContext.new pr with
    | error e =>
        simp [trace_external_api, trace_external_api_result, hn,
          callbackEvents, all_but_last_continue]
    | ok ctx2 =>
        cases hc : (ctx2.cursor v pr sf).2 with
        | error e =>
            simp [trace_external_api, trace_external_api_result, hn, hc,
              callbackEvents, all_but_last_continue]
        | ok x =>
            obtain ⟨l, hl, ha⟩ := pull_loop_shape rs pr f x fuel
            simp [trace_external_api, trace_external_api_result, hn, hc,
              hl, callbackEvents_guard_blocks]
            exact ha

/-- Claim C8: in both walks the observable trace is exactly a
concatenation of arm–callback–disarm blocks, so the re-entrancy guard is
armed immediately before every callback invocation, is armed for the whole
invocation, and is disarmed immediately after the callback returns
normally. -/
theorem C8_guard_bracketing (P : UwProvider) (cb : Frame → Bool)
    (ctxs : List Nat) (v : Variant) (rs : RegScheme) (pr : ExtProvider)
    (f : Frame → Bool) (sf : Bool) (fuel : Nat) :
    trace P cb ctxs = guard_blocks (callbackEvents (trace P cb ctxs))
      ∧ (trace_external_api v rs pr f sf fuel).1
          = guard_blocks
              (callbackEvents (trace_external_api v rs pr f sf fuel).1) := by
  constructor
  · obtain ⟨l, hl, _⟩ := push_trace_shape P cb ctxs
    rw [hl, callbackEvents_guard_blocks]
  · cases hn : UnwContext.new pr with
    | error e =>
        simp [trace_external_api, trace_external_api_result, hn,
          callbackEvents, guard_blocks]
    | ok ctx2 =>
        cases hc : (ctx2.cursor v pr sf).2 with
        | error e =>
            simp [trace_external_api, trace_external_api_result, hn, hc,
              callbackEvents, guard_blocks]
        | ok x =>
            obtain ⟨l, hl, _⟩ := pull_loop_shape rs pr f x fuel
            simp [trace_external_api, trace_external_api_result, hn, hc,
              hl, callbackEvents_guard_blocks]

end Backtrace
